import Mathlib

/-!
Verification development for the LearnDemo repository (job-skill gap analyzer
plus tutoring session).  The definitions below are a shallow embedding of the
Python sources in `src/`:

  * `src/analyzer.py`  — `Analyzer.get_requirements`, `Analyzer.get_gaps`,
    `Analyzer.generate_report` and the pydantic response models.
  * `src/learning.py`  — `LearningPlatform.fetch_web_context`,
    `LearningPlatform.tutor_reply`, `LearningPlatform.run`.
  * `src/teacher.py`   — `Teacher.init_chat`, `Teacher.chat`,
    `Teacher.save_history`.

External collaborators (the Gemini structured-completion calls, the ReAct
agent, the DuckDuckGo fetch, the wall clock) are passed in as explicit
function parameters; Python dicts are embedded as ordered association lists,
matching insertion order of the dict literals in the source.
-/

namespace LearnDemo

/-- A Python `dict` with string keys and string values, embedded as an
ordered association list (Python dicts preserve insertion order). -/
abbrev Dict := List (String × String)

/-- `d[key]`-style lookup on an embedded dict: first binding of `key` wins. -/
def lookupKV {α : Type} : List (String × α) → String → Option α
  | [], _ => Option.none
  | (k, v) :: rest, key => if k = key then some v else lookupKV rest key

/-- Whitespace characters removed by Python `str.strip()` (ASCII range,
which covers every string in this development). -/
def pyIsSpace (c : Char) : Bool :=
  c = ' ' || c = '\t' || c = '\n' || c = '\x0d' || c = '\x0b' || c = '\x0c'

/-- Drop leading whitespace from a character list. -/
def dropSpaces : List Char → List Char
  | [] => []
  | c :: cs => if pyIsSpace c then dropSpaces cs else c :: cs

/-- Python `str.strip()`: remove leading and trailing whitespace. -/
def pyStrip (s : String) : String :=
  ⟨(dropSpaces (dropSpaces s.data.reverse).reverse)⟩

/-- Python `str.lower()` on one character (ASCII range, which covers every
string in this development). -/
def pyLowerChar (c : Char) : Char :=
  if 'A' ≤ c ∧ c ≤ 'Z' then Char.ofNat (c.toNat + 32) else c

/-- Python `str.lower()`. -/
def pyLower (s : String) : String :=
  ⟨s.data.map pyLowerChar⟩

/-- Escaping of one character as performed by Python `json.dumps` on the
characters that can occur in skill records (backslash and double quote). -/
def pyJsonEscapeChar (c : Char) : String :=
  if c = '\\' then "\\\\" else if c = '"' then "\\\"" else String.singleton c

/-- String escaping as performed by Python `json.dumps`. -/
def pyJsonEscape (s : String) : String :=
  s.foldl (fun acc c => acc ++ pyJsonEscapeChar c) ""

/-- Rendering of one dict by `json.dumps` (the source passes `indent=2`; the
exact whitespace of the rendered prompt is irrelevant to every claim, so the
embedding renders the same keys and values compactly). -/
def jsonDumpsDict (d : Dict) : String :=
  "\x7b" ++ String.intercalate ", "
      (d.map fun kv => "\"" ++ pyJsonEscape kv.1 ++ "\": \"" ++ pyJsonEscape kv.2 ++ "\"")
    ++ "\x7d"

/-- Rendering of a list of dicts by `json.dumps`. -/
def jsonDumpsDicts (ds : List Dict) : String :=
  "[" ++ String.intercalate ", " (ds.map jsonDumpsDict) ++ "]"

/-- Modelled from the spec: `enums.Proficiency` is imported by
`src/analyzer.py` and `src/teacher.py` but `enums.py` is not in the
repository snapshot.  Spec section 3 defines it as the totally ordered
enumeration `none < beginner < intermediate < advanced < expert`. -/
inductive Proficiency where
  | none
  | beginner
  | intermediate
  | advanced
  | expert
deriving DecidableEq

/-- Modelled from the spec: the string `.value` of each `enums.Proficiency`
member, as serialized by `Teacher.save_history`. -/
def Proficiency.value : Proficiency → String
  | Proficiency.none => "none"
  | Proficiency.beginner => "beginner"
  | Proficiency.intermediate => "intermediate"
  | Proficiency.advanced => "advanced"
  | Proficiency.expert => "expert"

/-- The pydantic `Skill` response model (src/analyzer.py:29-33): one skill
extracted by the structured completion call in `get_requirements`. -/
structure Skill where
  skill_name : String
  proficiency_level : String
deriving DecidableEq

/-- The pydantic `SkillGap` response model (src/analyzer.py:40-48): one gap
reported by the structured completion call in `get_gaps`.  It has exactly
three fields; there is no severity field. -/
structure SkillGap where
  skill_name : String
  current_level : String
  required_level : String
deriving DecidableEq

/-- The user-profile dict returned by `Analyzer.analyze_cv`
(src/analyzer.py:153-160): keys `user_name`, `skills`, `profile_summary`. -/
structure UserProfile where
  user_name : String
  skills : List Dict
  profile_summary : String
deriving DecidableEq

/-- The job-details dict returned by `Analyzer.get_job_details`
(src/analyzer.py:199-204). -/
structure JobDetails where
  job_role : String
  company_name : String
  job_location : String
  description_summary : String
deriving DecidableEq

/-- The prompt built by `Analyzer.get_requirements` (src/analyzer.py:208-216). -/
def reqMessage (description : String) : String :=
  "Based on the following job description:\n" ++ description ++ "\n\n" ++
  "Identify the required skills and their required proficiency levels. " ++
  "For each skill, provide:\n" ++
  "- skill_name: The name of the skill\n" ++
  "- proficiency_level: beginner/intermediate/advanced/expert\n"

/-- The dict built for one skill by the loop of `Analyzer.get_requirements`
(src/analyzer.py:221-227): `.strip().lower()` on both fields. -/
def skillToDict (skill : Skill) : Dict :=
  [("skill_name", pyLower (pyStrip skill.skill_name)),
   ("proficiency_level", pyLower (pyStrip skill.proficiency_level))]

/-- Embeds `Analyzer.get_requirements` (src/analyzer.py:206-229).  The
structured completion call `structured_llm.invoke([message])` is an external
collaborator, passed in as `llm` (prompt text to `Requirements.skills`). -/
def get_requirements (llm : String → List Skill) (description : String) : List Dict :=
  (llm (reqMessage description)).map skillToDict

/-- The prompt built by `Analyzer.get_gaps` (src/analyzer.py:233-243). -/
def gapsMessage (user_profile : UserProfile) (required_skills : List Dict) : String :=
  "User\x27s current profile: " ++ jsonDumpsDicts user_profile.skills ++ "\n" ++
  "Required skills for the job: " ++ jsonDumpsDicts required_skills ++ "\n\n" ++
  "Compare the user\x27s current skills with the job requirements and identify skill gaps. " ++
  "For each gap, provide:\n" ++
  "- skill_name: The name of the skill\n" ++
  "- current_level: User\x27s current proficiency beginner/intermediate/advanced/expert\n" ++
  "- required_level: Required proficiency level beginner/intermediate/advanced/expert\n"

/-- The dict built for one gap by the loop of `Analyzer.get_gaps`
(src/analyzer.py:248-255): `.strip().lower()` on all three fields. -/
def gapToDict (gap : SkillGap) : Dict :=
  [("skill_name", pyLower (pyStrip gap.skill_name)),
   ("current_level", pyLower (pyStrip gap.current_level)),
   ("required_level", pyLower (pyStrip gap.required_level))]

/-- Embeds `Analyzer.get_gaps` (src/analyzer.py:231-256).  The structured
completion call is the external collaborator `llm` (prompt text to
`Gaps.skills`); the two inputs reach it only through the prompt. -/
def get_gaps (llm : String → List SkillGap) (user_profile : UserProfile)
    (required_skills : List Dict) : List Dict :=
  (llm (gapsMessage user_profile required_skills)).map gapToDict

/-- A JSON value appearing in the report dict: a string or an array of
dicts. -/
inductive JVal where
  | s (v : String)
  | arr (v : List Dict)
deriving DecidableEq

/-- Embeds `Analyzer.generate_report` (src/analyzer.py:258-276).
`datetime.now().strftime(...)` is the external clock, passed in as `now`. -/
def generate_report (now : String) (user_profile : UserProfile) (job_details : JobDetails)
    (skill_requirements : List Dict) (skill_gaps : List Dict) : List (String × JVal) :=
  [("timestamp", JVal.s now),
   ("user_name", JVal.s user_profile.user_name),
   ("user_skills", JVal.arr user_profile.skills),
   ("user_profile_summary", JVal.s user_profile.profile_summary),
   ("job_role", JVal.s job_details.job_role),
   ("job_location", JVal.s job_details.job_location),
   ("company_name", JVal.s job_details.company_name),
   ("description_summary", JVal.s job_details.description_summary),
   ("required_skills", JVal.arr skill_requirements),
   ("skill_gaps", JVal.arr skill_gaps)]

/-- The `skill_gaps` entry of a report (empty when absent or non-array). -/
def reportSkillGaps (report : List (String × JVal)) : List Dict :=
  match lookupKV report "skill_gaps" with
  | some (JVal.arr l) => l
  | _ => []

/-- The sentinel returned by `LearningPlatform.fetch_web_context` when the
HTTP request fails (src/learning.py:52-53). -/
def noContextSentinel : String := "No external context available right now."

/-- Embeds `LearningPlatform.fetch_web_context` (src/learning.py:40-53).
The DuckDuckGo request is the external collaborator `web`; on success the
code keeps `resp.text[:1500]`, and any exception is caught and replaced by
the sentinel string. -/
def fetch_web_context (web : String → Except Unit String) (query : String) : String :=
  match web query with
  | Except.ok text => text.take 1500
  | Except.error _ => noContextSentinel

/-- The system prompt built by `LearningPlatform.tutor_reply`
(src/learning.py:58-65). -/
def tutorSysPrompt (current_skill context : String) : String :=
  "You are a strict but helpful tutor. " ++
  "The student is learning \x27" ++ current_skill ++ "\x27. " ++
  "Use the context below + conversation to explain clearly. " ++
  "Ask questions, give examples, and test the student often. " ++
  "Be assertive and structured.\n\n" ++
  "Web Context:\n" ++ context

/-- Embeds `LearningPlatform.tutor_reply` (src/learning.py:55-79).  Its first
action is always the web-context fetch; the completion collaborator `llm`
receives the system prompt and the user message ([SystemMessage,
HumanMessage]) and may fail (`except`ion from `self.llm(messages)`). -/
def tutor_reply (web : String → Except Unit String)
    (llm : String → String → Except Unit String)
    (current_skill user_input : String) (intro : Bool) : Except Unit String :=
  let context := fetch_web_context web (current_skill ++ " " ++ user_input)
  let sys_prompt := tutorSysPrompt current_skill context
  let user_msg :=
    if intro then "Introduce " ++ current_skill ++ " and ask me a first warm-up question."
    else user_input
  llm sys_prompt user_msg

/-- Observable events of a `LearningPlatform.run` session, tagged with the
turn in progress (the introduction is turn 0; the n-th user exchange is turn
n, i.e. the value `turn_count` reaches after that exchange). -/
inductive LEvent where
  | fetch (turn : Nat) (query : String)
  | update (turn : Nat)
deriving DecidableEq

/-- Embeds the `while True` loop of `LearningPlatform.run`
(src/learning.py:98-109), driven by the list of user inputs: on a non-exit
input the turn performs the web fetch inside `tutor_reply` (emitted as
`LEvent.fetch`, tagged with the turn in progress `tc + 1`), then the
completion call; an exception from the completion aborts the loop before
`turn_count += 1`; on success `turn_count` is incremented and `update_info`
(`LEvent.update`) fires when the new count is a multiple of 5.  Returns the
event trace and the final `turn_count`. -/
def runLoop (web : String → Except Unit String)
    (llm : String → String → Except Unit String) (skill : String) :
    List String → Nat → List LEvent × Nat
  | [], tc => ([], tc)
  | user_input :: rest, tc =>
    if pyStrip (pyLower user_input) = "exit" then ([], tc)
    else
      match tutor_reply web llm skill user_input false with
      | Except.error _ => ([LEvent.fetch (tc + 1) (skill ++ " " ++ user_input)], tc)
      | Except.ok _ =>
        let next := runLoop web llm skill rest (tc + 1)
        (LEvent.fetch (tc + 1) (skill ++ " " ++ user_input)
            :: ((if (tc + 1) % 5 = 0 then [LEvent.update (tc + 1)] else []) ++ next.1),
         next.2)

/-- Embeds `LearningPlatform.run` (src/learning.py:85-109) for a session
whose report has a non-empty gap list and whose focus skill has been chosen:
the tutor speaks first (`tutor_reply("", intro=True)`, whose fetch is turn
0), then the loop consumes the user inputs. -/
def runEvents (web : String → Except Unit String)
    (llm : String → String → Except Unit String) (skill : String)
    (inputs : List String) : List LEvent × Nat :=
  match tutor_reply web llm skill "" true with
  | Except.error _ => ([LEvent.fetch 0 (skill ++ " ")], 0)
  | Except.ok _ =>
    let l := runLoop web llm skill inputs 0
    (LEvent.fetch 0 (skill ++ " ") :: l.1, l.2)

/-- The turns at which a trace performs a web-context fetch. -/
def fetchTurns (evs : List LEvent) : List Nat :=
  evs.filterMap fun e =>
    match e with
    | LEvent.fetch t _ => some t
    | _ => Option.none

/-- The turns at which a trace fires `update_info`. -/
def updateTurns (evs : List LEvent) : List Nat :=
  evs.filterMap fun e =>
    match e with
    | LEvent.update t => some t
    | _ => Option.none

/-- Message roles of the LangChain message classes used by `Teacher`
(HumanMessage / AIMessage / SystemMessage). -/
inductive Role where
  | user
  | assistant
  | system
deriving DecidableEq

/-- One chat message held in `Teacher.chat_history`. -/
structure ChatMsg where
  role : Role
  content : String
deriving DecidableEq

/-- The role string chosen by the `isinstance` chain of
`Teacher.save_history` (src/teacher.py:100-109); the `else` branch is
unreachable for the three message classes modelled by `Role`. -/
def roleName : Role → String
  | Role.user => "user"
  | Role.assistant => "assistant"
  | Role.system => "system"

/-- One serialized chat entry of `Teacher.save_history`
(src/teacher.py:111-115). -/
def serializeMsg (now : String) (m : ChatMsg) : Dict :=
  [("role", roleName m.role), ("message", m.content), ("timestamp", now)]

/-- The `data` dict written to `history.json` by `Teacher.save_history`
(src/teacher.py:117-125). -/
structure HistoryData where
  timestamp : String
  user_name : String
  job_role : String
  job_proficiency : String
  teaching_skill : String
  teaching_proficiency : String
  chat_history : List Dict
deriving DecidableEq

/-- The mutable state of a `Teacher` instance (src/teacher.py:24-70): the
session fields, the in-memory `chat_history`, the `chat_init` flag, and the
contents of `history.json` (`Option.none` when the file does not exist). -/
structure TeacherState where
  session_timestamp : String
  user_name : String
  job_role : String
  job_proficiency : Proficiency
  teaching_skill : String
  teaching_proficiency : Proficiency
  chat_history : List ChatMsg
  chat_init : Bool
  file : Option HistoryData
deriving DecidableEq

/-- The serialized session of `Teacher.save_history`. -/
def historyData (now : String) (st : TeacherState) : HistoryData :=
  { timestamp := st.session_timestamp
    user_name := st.user_name
    job_role := st.job_role
    job_proficiency := st.job_proficiency.value
    teaching_skill := st.teaching_skill
    teaching_proficiency := st.teaching_proficiency.value
    chat_history := st.chat_history.map (serializeMsg now) }

/-- Embeds `Teacher.save_history` (src/teacher.py:97-128) at the level of the
durable record: the serialized session replaces the contents of
`history.json`. -/
def save_history (now : String) (st : TeacherState) : TeacherState :=
  { st with file := some (historyData now st) }

/-- Errors surfaced by `Teacher.init_chat` / `Teacher.chat`: a propagated
completion-collaborator exception (transient, retryable), or the
`RuntimeError("Init chat model first")` raised when `chat_init` is false. -/
inductive ChatErr where
  | serviceUnavailable
  | initRequired
deriving DecidableEq

/-- Embeds `Teacher.init_chat` (src/teacher.py:131-155).  The ReAct agent is
the external collaborator `agent` (invoked on `chat_history + [message]`);
on success the user message and the reply are appended, the session is
saved, and `chat_init` is set; an agent exception propagates with the state
untouched (no statement before the `invoke` assigns to `self`). -/
def init_chat (agent : List ChatMsg → Except Unit ChatMsg) (now : String)
    (st : TeacherState) (message : String) : TeacherState × Except ChatErr String :=
  let msg : ChatMsg := ⟨Role.user, message⟩
  match agent (st.chat_history ++ [msg]) with
  | Except.error _ => (st, Except.error ChatErr.serviceUnavailable)
  | Except.ok assistant_reply =>
    let st1 := { st with chat_history := st.chat_history ++ [msg, assistant_reply] }
    let st2 := save_history now st1
    let st3 := { st2 with chat_init := true }
    (st3, Except.ok assistant_reply.content)

/-- Embeds `Teacher.chat` (src/teacher.py:158-183).  When `chat_init` is
false it raises `RuntimeError` at once; otherwise the agent is invoked on
`[user_message]` (the checkpointer carries the thread); an exception from
the invoke propagates before any append or save.  The third component
records the prompts actually sent to the completion collaborator. -/
def chat (agent : List ChatMsg → Except Unit ChatMsg) (now : String)
    (st : TeacherState) (message : String) :
    TeacherState × Except ChatErr String × List (List ChatMsg) :=
  if st.chat_init then
    let user_message : ChatMsg := ⟨Role.user, message⟩
    match agent [user_message] with
    | Except.error _ => (st, Except.error ChatErr.serviceUnavailable, [[user_message]])
    | Except.ok assistant_reply =>
      let st1 := { st with chat_history := st.chat_history ++ [user_message, assistant_reply] }
      let st2 := save_history now st1
      (st2, Except.ok assistant_reply.content, [[user_message]])
  else
    (st, Except.error ChatErr.initRequired, [])

/-- One atomic filesystem step of `Teacher.save_history`: opening
`history.json` with mode `"w"` truncates it; `json.dump` then writes the
serialized session (modelled as one write that sets the contents — the
preceding truncation makes this the full-file write the code performs). -/
inductive FsOp where
  | truncate
  | writeAll (content : String)
deriving DecidableEq

/-- The filesystem steps performed by `Teacher.save_history`
(src/teacher.py:127-128): `open("history.json", "w")` then
`json.dump(data, file, indent=4)`.  There is no temporary file and no
rename. -/
def save_history_ops (data : String) : List FsOp := [FsOp.truncate, FsOp.writeAll data]

/-- Effect of one filesystem step on the contents of `history.json`
(`Option.none` means the file does not exist). -/
def applyFsOp (_file : Option String) (op : FsOp) : Option String :=
  match op with
  | FsOp.truncate => some ""
  | FsOp.writeAll c => some c

/-- The contents of `history.json` a reader observes when the process
crashes after the first `k` filesystem steps of `save_history`, starting
from contents `prev`. -/
def crashState (prev : Option String) (data : String) (k : Nat) : Option String :=
  ((save_history_ops data).take k).foldl applyFsOp prev

/-! Concrete fixtures used by counterexamples and witnesses. -/

/-- A candidate/required skill record: python at advanced level. -/
def pySkillDict : Dict := [("skill_name", "python"), ("proficiency_level", "advanced")]

/-- A concrete user profile whose skill list is `[pySkillDict]`. -/
def upExample : UserProfile := ⟨"Ada", [pySkillDict], "summary"⟩

/-- Concrete job details. -/
def jdExample : JobDetails := ⟨"Engineer", "Acme", "Remote", "Builds systems"⟩

/-- A collaborator behavior returning one gap with noisy casing. -/
def llmOneGap : String → List SkillGap := fun _ => [⟨" Python ", "none", "expert"⟩]

/-- Claim C1, counterexample: with the candidate skill list equal to the
required list, `get_gaps` still emits a gap — including one whose current
level equals its required level — whenever the completion collaborator
reports one, because the code applies no filtering at all. -/
theorem get_gaps_emits_tie_gap :
    upExample.skills = [pySkillDict] ∧
    get_gaps (fun _ => [⟨"python", "advanced", "advanced"⟩]) upExample [pySkillDict]
      = [[("skill_name", "python"), ("current_level", "advanced"),
          ("required_level", "advanced")]] := by
  decide

/-- Claim C1 (amended): `Analyzer.get_gaps` performs no level comparison or
filtering — every emitted gap entry is the trim/lower-case normalization of
an entry of the completion collaborator's structured response, and the
output is empty whenever that response is empty (in particular, with
candidate == required, the gap list is empty iff the collaborator reports no
gaps). -/
theorem get_gaps_entries_from_llm
    (llm : String → List SkillGap) (up : UserProfile) (required_skills : List Dict) (d : Dict)
    (hd : d ∈ get_gaps llm up required_skills) :
    (∃ g, g ∈ llm (gapsMessage up required_skills) ∧ d = gapToDict g) ∧
    (llm (gapsMessage up required_skills) = [] → get_gaps llm up required_skills = []) := by
  constructor
  · simp only [get_gaps] at hd
    obtain ⟨g, hg, h⟩ := List.mem_map.mp hd
    exact ⟨g, hg, h.symm⟩
  · intro h
    simp [get_gaps, h]

/-- Witness for the C1 theorem at a concrete collaborator response. -/
theorem get_gaps_entries_from_llm_witness :
    ∃ g, g ∈ llmOneGap (gapsMessage upExample [pySkillDict]) ∧
      [("skill_name", "python"), ("current_level", "none"), ("required_level", "expert")]
        = gapToDict g :=
  (get_gaps_entries_from_llm llmOneGap upExample [pySkillDict]
      [("skill_name", "python"), ("current_level", "none"), ("required_level", "expert")]
      (by decide)).1

/-- Claim C2, counterexample: on identical candidate and required skill
lists, two runs of `get_gaps` differ when the completion collaborator's
responses differ — the result is not a function of the two inputs alone. -/
theorem get_gaps_depends_on_collaborator :
    get_gaps (fun _ => []) upExample [pySkillDict]
      ≠ get_gaps (fun _ => [⟨"docker", "none", "intermediate"⟩]) upExample [pySkillDict] := by
  decide

/-- Claim C2 (amended): `Analyzer.get_gaps` is deterministic given the
completion collaborator's structured response: whenever two runs receive the
same response to the prompt built from their inputs, they produce identical
gap sequences in content and order. -/
theorem get_gaps_pure_in_response
    (llm1 llm2 : String → List SkillGap) (up1 up2 : UserProfile) (r1 r2 : List Dict)
    (h : llm1 (gapsMessage up1 r1) = llm2 (gapsMessage up2 r2)) :
    get_gaps llm1 up1 r1 = get_gaps llm2 up2 r2 := by
  simp [get_gaps, h]

/-- Witness for the C2 theorem: two profiles differing only in fields that do
not reach the prompt produce the same gaps under the same collaborator. -/
theorem get_gaps_pure_in_response_witness :
    get_gaps llmOneGap upExample [pySkillDict]
      = get_gaps llmOneGap ⟨"Bob", [pySkillDict], "other"⟩ [pySkillDict] :=
  get_gaps_pure_in_response llmOneGap llmOneGap upExample ⟨"Bob", [pySkillDict], "other"⟩
    [pySkillDict] [pySkillDict] rfl

/-- A required list naming python before docker. -/
def reqTwo : List Dict :=
  [[("skill_name", "python"), ("proficiency_level", "advanced")],
   [("skill_name", "docker"), ("proficiency_level", "intermediate")]]

/-- A collaborator response listing the gaps in the opposite order. -/
def llmReversed : String → List SkillGap :=
  fun _ => [⟨"docker", "none", "intermediate"⟩, ⟨"python", "none", "advanced"⟩]

/-- Claim C3, counterexample: when the collaborator reports the gaps in an
order different from `required_skills`, the output follows the collaborator,
not the required list filtered to gap-producing entries. -/
theorem get_gaps_not_required_order :
    (get_gaps llmReversed upExample reqTwo).map (fun d => lookupKV d "skill_name")
      ≠ (reqTwo.map (fun d => lookupKV d "skill_name")).filter
          (fun n => ((get_gaps llmReversed upExample reqTwo).map
              (fun d => lookupKV d "skill_name")).contains n) := by
  decide

/-- Claim C3 (amended): the order of the gap sequence emitted by
`Analyzer.get_gaps` equals the order of the completion collaborator's
response (skill names normalized pointwise); the code itself never reorders,
but it does not impose the `required_skills` order. -/
theorem get_gaps_order_follows_response
    (llm : String → List SkillGap) (up : UserProfile) (r : List Dict) :
    (get_gaps llm up r).map (fun d => lookupKV d "skill_name")
      = (llm (gapsMessage up r)).map (fun g => some (pyLower (pyStrip g.skill_name))) := by
  simp only [get_gaps, List.map_map]
  rfl

/-- The report assembled over a collaborator-reported docker gap. -/
def reportExample : List (String × JVal) :=
  generate_report "2024-01-01 00:00:00" upExample jdExample [pySkillDict]
    (get_gaps (fun _ => [⟨"docker", "none", "intermediate"⟩]) upExample [pySkillDict])

/-- Claim C4, counterexample: the report produced by
`Analyzer.generate_report` has a non-empty `skill_gaps` list none of whose
entries carries a `gap_severity` field — the `SkillGap` model has only
`skill_name`, `current_level` and `required_level`. -/
theorem report_gap_entries_lack_severity :
    reportSkillGaps reportExample ≠ [] ∧
    (reportSkillGaps reportExample).all (fun d => (lookupKV d "gap_severity").isNone) = true := by
  decide

/-- Claim C4 (amended): `Analyzer.generate_report` passes the gap list of
`get_gaps` through unchanged, and every entry carries exactly the fields
`skill_name`, `current_level`, `required_level` — no `gap_severity` field is
computed or attached anywhere in the pipeline. -/
theorem report_gaps_passthrough
    (now : String) (up0 : UserProfile) (jd : JobDetails) (req : List Dict)
    (llm : String → List SkillGap) (up : UserProfile) (r : List Dict) (d : Dict)
    (hd : d ∈ get_gaps llm up r) :
    reportSkillGaps (generate_report now up0 jd req (get_gaps llm up r)) = get_gaps llm up r ∧
    d.map Prod.fst = ["skill_name", "current_level", "required_level"] ∧
    lookupKV d "gap_severity" = Option.none := by
  refine ⟨?_, ?_, ?_⟩
  · simp [reportSkillGaps, generate_report, lookupKV]
  · simp only [get_gaps] at hd
    obtain ⟨g, hg, h⟩ := List.mem_map.mp hd
    subst h
    simp [gapToDict]
  · simp only [get_gaps] at hd
    obtain ⟨g, hg, h⟩ := List.mem_map.mp hd
    subst h
    simp [gapToDict, lookupKV]

/-- Witness for the C4 theorem at a concrete report. -/
theorem report_gaps_passthrough_witness :
    (reportSkillGaps (generate_report "2024-01-01 00:00:00" upExample jdExample [pySkillDict]
          (get_gaps llmOneGap upExample [pySkillDict]))
        = get_gaps llmOneGap upExample [pySkillDict]) ∧
    ([("skill_name", "python"), ("current_level", "none"), ("required_level", "expert")].map
          Prod.fst
        = ["skill_name", "current_level", "required_level"]) ∧
    lookupKV [("skill_name", "python"), ("current_level", "none"), ("required_level", "expert")]
        "gap_severity" = Option.none :=
  report_gaps_passthrough "2024-01-01 00:00:00" upExample jdExample [pySkillDict]
    llmOneGap upExample [pySkillDict]
    [("skill_name", "python"), ("current_level", "none"), ("required_level", "expert")]
    (by decide)

/-- A collaborator response naming the same canonical skill twice. -/
def llmDupSkills : String → List Skill :=
  fun _ => [⟨"Python", "beginner"⟩, ⟨" python ", "expert"⟩]

/-- Claim C5, counterexample: when the collaborator's response names the same
canonical skill twice, `get_requirements` keeps both records — two entries
with canonical name "python" appear, so no merge keeping the higher
proficiency happens. -/
theorem requirements_keep_duplicates :
    ((get_requirements llmDupSkills "desc").map (fun d => lookupKV d "skill_name")).count
        (some "python") = 2 := by
  decide

/-- Claim C5 (amended): `Analyzer.get_requirements` performs no
deduplication: it returns exactly one trim/lower-case-normalized record per
record of the completion collaborator's response, in response order; records
sharing a canonical name all remain. -/
theorem requirements_no_dedup
    (llm : String → List Skill) (description : String) :
    (get_requirements llm description).length = (llm (reqMessage description)).length ∧
    ∀ d ∈ get_requirements llm description,
      ∃ s, s ∈ llm (reqMessage description) ∧ d = skillToDict s := by
  constructor
  · simp [get_requirements]
  · intro d hd
    simp only [get_requirements] at hd
    obtain ⟨s, hs, h⟩ := List.mem_map.mp hd
    exact ⟨s, hs, h.symm⟩

/-- Witness for the C5 theorem at the duplicate-skill response. -/
theorem requirements_no_dedup_witness :
    ∃ s, s ∈ llmDupSkills (reqMessage "desc") ∧
      [("skill_name", "python"), ("proficiency_level", "beginner")] = skillToDict s :=
  (requirements_no_dedup llmDupSkills "desc").2
    [("skill_name", "python"), ("proficiency_level", "beginner")] (by decide)

/-- `fetchTurns` drops a leading update event. -/
theorem fetchTurns_update_cons (t : Nat) (evs : List LEvent) :
    fetchTurns (LEvent.update t :: evs) = fetchTurns evs := rfl

/-- `fetchTurns` keeps a leading fetch event. -/
theorem fetchTurns_fetch_cons (t : Nat) (q : String) (evs : List LEvent) :
    fetchTurns (LEvent.fetch t q :: evs) = t :: fetchTurns evs := rfl

/-- `fetchTurns` distributes over append. -/
theorem fetchTurns_append (l1 l2 : List LEvent) :
    fetchTurns (l1 ++ l2) = fetchTurns l1 ++ fetchTurns l2 := by
  simp [fetchTurns]

/-- `updateTurns` drops a leading fetch event. -/
theorem updateTurns_fetch_cons (t : Nat) (q : String) (evs : List LEvent) :
    updateTurns (LEvent.fetch t q :: evs) = updateTurns evs := rfl

/-- `updateTurns` keeps a leading update event. -/
theorem updateTurns_update_cons (t : Nat) (evs : List LEvent) :
    updateTurns (LEvent.update t :: evs) = t :: updateTurns evs := rfl

/-- `updateTurns` distributes over append. -/
theorem updateTurns_append (l1 l2 : List LEvent) :
    updateTurns (l1 ++ l2) = updateTurns l1 ++ updateTurns l2 := by
  simp [updateTurns]

/-- Cadence of the main loop of `LearningPlatform.run`: starting from turn
count `tc`, with a never-failing completion collaborator and no "exit" input,
the loop fetches web context on every turn `tc+1 … tc+n` and fires
`update_info` exactly on those turns that are multiples of 5. -/
theorem runLoop_turns (web : String → Except Unit String)
    (llm : String → String → Except Unit String) (skill : String)
    (inputs : List String) (tc : Nat)
    (hok : ∀ s u, ∃ t, llm s u = Except.ok t)
    (hexit : ∀ s ∈ inputs, ¬ pyStrip (pyLower s) = "exit") :
    fetchTurns (runLoop web llm skill inputs tc).1 = List.range' (tc + 1) inputs.length ∧
    updateTurns (runLoop web llm skill inputs tc).1
      = (List.range' (tc + 1) inputs.length).filter (fun t => t % 5 == 0) := by
  induction inputs generalizing tc with
  | nil => simp [runLoop, fetchTurns, updateTurns]
  | cons a rest ih =>
    have ha : ¬ pyStrip (pyLower a) = "exit" := hexit a (by simp)
    have hrest : ∀ s ∈ rest, ¬ pyStrip (pyLower s) = "exit" :=
      fun s hs => hexit s (by simp [hs])
    obtain ⟨t, ht⟩ := hok (tutorSysPrompt skill (fetch_web_context web (skill ++ " " ++ a))) a
    have htr : tutor_reply web llm skill a false = Except.ok t := ht
    have ihr := ih (tc + 1) hrest
    rw [runLoop, if_neg ha, htr]
    by_cases h5 : (tc + 1) % 5 = 0
    · constructor
      · rw [fetchTurns_fetch_cons, fetchTurns_append, if_pos h5,
          show fetchTurns [LEvent.update (tc + 1)] = [] from rfl, List.nil_append, ihr.1,
          List.length_cons, List.range'_succ]
      · rw [updateTurns_fetch_cons, updateTurns_append, if_pos h5,
          show updateTurns [LEvent.update (tc + 1)] = [tc + 1] from rfl, ihr.2,
          List.length_cons, List.range'_succ, List.filter_cons]
        simp [h5]
    · constructor
      · rw [fetchTurns_fetch_cons, if_neg h5, List.nil_append, ihr.1,
          List.length_cons, List.range'_succ]
      · rw [updateTurns_fetch_cons, if_neg h5, List.nil_append, ihr.2,
          List.length_cons, List.range'_succ, List.filter_cons]
        simp [h5]

/-- A web collaborator that always succeeds. -/
def webOk : String → Except Unit String := fun _ => Except.ok "ctx"

/-- A completion collaborator that always succeeds. -/
def llmOk : String → String → Except Unit String := fun _ _ => Except.ok "reply"

/-- Claim C6, counterexample: already in a one-turn session the code fetches
fresh web context on turn 1 (inside `tutor_reply`), although
`1 mod 5 ≠ 0` — the fetch is not tied to the refresh cadence, which only
gates the `update_info` notification. -/
theorem fetch_fires_on_turn_one :
    LEvent.fetch 1 "docker tell me more" ∈ (runEvents webOk llmOk "docker" ["tell me more"]).1 ∧
    ¬ (1 % 5 = 0 ∧ 0 < 1) := by
  decide

/-- Claim C6 (amended): in a session with a never-failing completion
collaborator and no "exit" input, web context is fetched on every turn —
the introduction (turn 0) and each of turns 1 … n — while the `update_info`
refresh notification fires exactly on the turns where the incremented
`turn_count` is a positive multiple of 5; in a 12-turn session those are
turns 5 and 10 only. -/
theorem run_fetch_and_update_cadence (web : String → Except Unit String)
    (llm : String → String → Except Unit String) (skill : String) (inputs : List String)
    (hok : ∀ s u, ∃ t, llm s u = Except.ok t)
    (hexit : ∀ s ∈ inputs, ¬ pyStrip (pyLower s) = "exit") :
    fetchTurns (runEvents web llm skill inputs).1 = 0 :: List.range' 1 inputs.length ∧
    updateTurns (runEvents web llm skill inputs).1
      = (List.range' 1 inputs.length).filter (fun t => t % 5 == 0) := by
  obtain ⟨t, ht⟩ := hok (tutorSysPrompt skill (fetch_web_context web (skill ++ " " ++ "")))
    ("Introduce " ++ skill ++ " and ask me a first warm-up question.")
  have hintro : tutor_reply web llm skill "" true = Except.ok t := ht
  have hl := runLoop_turns web llm skill inputs 0 hok hexit
  rw [runEvents, hintro]
  exact ⟨by rw [fetchTurns_fetch_cons, hl.1], by rw [updateTurns_fetch_cons, hl.2]⟩

/-- Witness for the C6 theorem: a 12-turn session refreshes at turns 5 and
10 only, and fetches on turns 0 … 12. -/
theorem run_fetch_and_update_cadence_witness :
    fetchTurns (runEvents webOk llmOk "docker"
        ["a", "b", "c", "d", "e", "f", "g", "h", "i", "j", "k", "l"]).1
      = 0 :: List.range' 1 12 ∧
    updateTurns (runEvents webOk llmOk "docker"
        ["a", "b", "c", "d", "e", "f", "g", "h", "i", "j", "k", "l"]).1
      = (List.range' 1 12).filter (fun t => t % 5 == 0) :=
  run_fetch_and_update_cadence webOk llmOk "docker"
    ["a", "b", "c", "d", "e", "f", "g", "h", "i", "j", "k", "l"]
    (fun _ _ => ⟨"reply", rfl⟩) (by decide)

/-- Claim C7: if the completion collaborator fails during a turn, the
session state after the failed turn equals the state before it — the
`Teacher` state (chat history, `chat_init`, persisted `history.json`) is
untouched and the propagated exception is surfaced as a retryable error, and
the `LearningPlatform` loop leaves `turn_count` unincremented because the
exception is raised before `turn_count += 1`. -/
theorem completion_failure_preserves_state
    (agent : List ChatMsg → Except Unit ChatMsg) (now : String) (st : TeacherState)
    (message : String)
    (web : String → Except Unit String) (llm : String → String → Except Unit String)
    (skill : String) (tc : Nat) (rest : List String)
    (hinit : st.chat_init = true)
    (hfail : agent [⟨Role.user, message⟩] = Except.error ())
    (hexit : ¬ pyStrip (pyLower message) = "exit")
    (hfail2 : tutor_reply web llm skill message false = Except.error ()) :
    (chat agent now st message).1 = st ∧
    (chat agent now st message).2.1 = Except.error ChatErr.serviceUnavailable ∧
    (runLoop web llm skill (message :: rest) tc).2 = tc := by
  refine ⟨?_, ?_, ?_⟩
  · simp [chat, hinit, hfail]
  · simp [chat, hinit, hfail]
  · rw [runLoop, if_neg hexit, hfail2]

/-- An agent collaborator that always fails. -/
def agentFail : List ChatMsg → Except Unit ChatMsg := fun _ => Except.error ()

/-- A completion collaborator that always fails. -/
def llmFail : String → String → Except Unit String := fun _ _ => Except.error ()

/-- A concrete initialized teacher state with two messages of history. -/
def stExample : TeacherState :=
  { session_timestamp := "2024-01-01 00:00:00"
    user_name := "Ada"
    job_role := "Engineer"
    job_proficiency := Proficiency.advanced
    teaching_skill := "docker"
    teaching_proficiency := Proficiency.intermediate
    chat_history := [⟨Role.user, "hi"⟩, ⟨Role.assistant, "hello"⟩]
    chat_init := true
    file := Option.none }

/-- Witness for the C7 theorem at a concrete failing collaborator. -/
theorem completion_failure_preserves_state_witness :
    (chat agentFail "2024-01-02 00:00:00" stExample "teach me").1 = stExample ∧
    (chat agentFail "2024-01-02 00:00:00" stExample "teach me").2.1
      = Except.error ChatErr.serviceUnavailable ∧
    (runLoop webOk llmFail "docker" ["teach me"] 3).2 = 3 :=
  completion_failure_preserves_state agentFail "2024-01-02 00:00:00" stExample "teach me"
    webOk llmFail "docker" 3 [] rfl rfl (by decide) rfl

/-- Claim C8, counterexample: a crash between the truncation performed by
`open("history.json", "w")` and the `json.dump` write leaves the durable
record empty — neither the last committed record, nor the new one, nor
NotFound — so the save is not atomic. -/
theorem save_history_torn_write :
    crashState (some "committed-session") "new-session" 1 ≠ some "committed-session" ∧
    crashState (some "committed-session") "new-session" 1 ≠ some "new-session" ∧
    crashState (some "committed-session") "new-session" 1 ≠ Option.none := by
  decide

/-- Claim C8 (amended): `save_history` writes `history.json` in place
(truncate, then write) with no temporary file and no rename; a reader at any
crash point observes the prior contents, an empty truncated file, or the new
contents — the empty-file observation being exactly the partially-written
state a write-to-temp-then-replace policy would rule out. -/
theorem save_history_crash_states (prev : Option String) (data : String) (k : Nat) :
    crashState prev data k = prev ∨ crashState prev data k = some "" ∨
    crashState prev data k = some data := by
  match k with
  | 0 => exact Or.inl rfl
  | 1 => exact Or.inr (Or.inl rfl)
  | (n + 2) =>
    refine Or.inr (Or.inr ?_)
    simp [crashState, save_history_ops, applyFsOp, List.take_succ_cons, List.take_nil]

/-- A web collaborator that always fails. -/
def webFail : String → Except Unit String := fun _ => Except.error ()

/-- Claim C9: a failing web-context collaborator never fails the turn —
`fetch_web_context` swallows the exception and returns the explicit
"no context" sentinel, and `tutor_reply` proceeds, invoking the completion
collaborator with the sentinel embedded in the system prompt. -/
theorem web_failure_degrades_to_sentinel
    (web : String → Except Unit String) (llm : String → String → Except Unit String)
    (current_skill user_input : String)
    (hfail : web (current_skill ++ " " ++ user_input) = Except.error ()) :
    fetch_web_context web (current_skill ++ " " ++ user_input) = noContextSentinel ∧
    tutor_reply web llm current_skill user_input false
      = llm (tutorSysPrompt current_skill noContextSentinel) user_input := by
  have h1 : fetch_web_context web (current_skill ++ " " ++ user_input) = noContextSentinel := by
    simp [fetch_web_context, hfail]
  exact ⟨h1, by simp [tutor_reply, h1]⟩

/-- Witness for the C9 theorem at a concrete failing web collaborator. -/
theorem web_failure_degrades_to_sentinel_witness :
    fetch_web_context webFail ("docker" ++ " " ++ "hi") = noContextSentinel ∧
    tutor_reply webFail llmOk "docker" "hi" false
      = llmOk (tutorSysPrompt "docker" noContextSentinel) "hi" :=
  web_failure_degrades_to_sentinel webFail llmOk "docker" "hi" rfl

/-- Claim C10: calling `Teacher.chat` while `chat_init` is false raises
`RuntimeError` and leaves the state unchanged — nothing appended to
`chat_history`, no completion call made (empty prompt log), nothing
persisted; after a successful `init_chat`, `chat_init` is true and `chat`
proceeds, returning the collaborator's reply. -/
theorem chat_requires_init_first
    (agent : List ChatMsg → Except Unit ChatMsg) (now now2 : String) (st : TeacherState)
    (message init_message : String) (reply reply2 : ChatMsg)
    (hinit : st.chat_init = false)
    (hagent : agent (st.chat_history ++ [⟨Role.user, init_message⟩]) = Except.ok reply)
    (hagent2 : agent [⟨Role.user, message⟩] = Except.ok reply2) :
    (chat agent now st message).1 = st ∧
    (chat agent now st message).2.1 = Except.error ChatErr.initRequired ∧
    (chat agent now st message).2.2 = [] ∧
    (init_chat agent now2 st init_message).1.chat_init = true ∧
    (chat agent now ((init_chat agent now2 st init_message).1) message).2.1
      = Except.ok reply2.content := by
  refine ⟨?_, ?_, ?_, ?_, ?_⟩
  · simp [chat, hinit]
  · simp [chat, hinit]
  · simp [chat, hinit]
  · simp [init_chat, hagent, save_history]
  · simp [init_chat, hagent, save_history, chat, hagent2]

/-- An agent collaborator that always replies "sure". -/
def agentOk : List ChatMsg → Except Unit ChatMsg :=
  fun _ => Except.ok ⟨Role.assistant, "sure"⟩

/-- A concrete uninitialized teacher state. -/
def stUninit : TeacherState := { stExample with chat_init := false }

/-- Witness for the C10 theorem at a concrete agent and state. -/
theorem chat_requires_init_first_witness :
    (chat agentOk "t1" stUninit "teach me").1 = stUninit ∧
    (chat agentOk "t1" stUninit "teach me").2.1 = Except.error ChatErr.initRequired ∧
    (chat agentOk "t1" stUninit "teach me").2.2 = [] ∧
    (init_chat agentOk "t0" stUninit "Hi").1.chat_init = true ∧
    (chat agentOk "t1" ((init_chat agentOk "t0" stUninit "Hi").1) "teach me").2.1
      = Except.ok "sure" :=
  chat_requires_init_first agentOk "t1" "t0" stUninit "teach me" "Hi"
    ⟨Role.assistant, "sure"⟩ ⟨Role.assistant, "sure"⟩ rfl rfl rfl

end LearnDemo
